import Mathlib

/-!
A shallow embedding of `src/ROP_FBXExporter.C` (class `ROP_FBXExporter` of the
HoudiniFBX repository).  Host-application nodes are identified with their full
paths, written as lists of path components (so `/obj/geo1` is
`["obj", "geo1"]` and the root `/` is `[]`); the parent of a node is
`List.dropLast` of its path.  Calls into the Autodesk FBX SDK, the host scene
graph and the visitor classes (which live outside this file's source) are
recorded as an ordered trace of events, and the exporter's member variables
are carried in an explicit state record.  `fpreal` values (times, frame
rates, unit scales) are modelled as rationals (decimal constants such as
`29.97` are written `mkRat 2997 100`, the same rational number); `SYSisEqual`
on them is exact equality, which is how the spec describes the comparisons.
-/

/-- One named animation clip of the export options (`ROP_FBXExportClip`:
name, start frame, end frame). -/
structure ROP_FBXExportClip where
  name : String
  start_frame : ℚ
  end_frame : ℚ
  deriving DecidableEq, Repr

/-- The axis-system choices of the export options (`ROP_FBXAxisSystem`). -/
inductive ROP_FBXAxisSystem where
  | Current
  | YUp_RightHanded
  | YUp_LeftHanded
  | ZUp_RightHanded
  deriving DecidableEq, Repr

/-- The unit targets of the export options (the `UNIT_*` constants switched on
in `doExport`, millimeter through mile). -/
inductive UnitTarget where
  | UNIT_MM
  | UNIT_CM
  | UNIT_DM
  | UNIT_M
  | UNIT_KM
  | UNIT_IN
  | UNIT_YA
  | UNIT_ML
  deriving DecidableEq, Repr

/-- The export options (`ROP_FBXExportOptions`), as read through the accessors
`doExport`/`finishExport` call.  The class itself is declared in a header that
is not part of `src/`; only the fields those accessors expose are modelled. -/
structure ROP_FBXExportOptions where
  startNodePath : List String
  exportingBundles : Bool
  bundlesString : String
  exportTakeName : String
  exportDeformsAsVC : Bool
  convertAxisSystem : Bool
  axisSystem : ROP_FBXAxisSystem
  convertUnits : Bool
  convertUnitTo : UnitTarget
  exportInAscii : Bool
  version : String
  embedMedia : Bool
  exportClips : List ROP_FBXExportClip
  deriving DecidableEq, Repr

/-- Modelled from the spec: `ROP_FBXExportOptions::reset()` (header not in
`src/`) restores default options — "Options are copied in at initialization
(defaults used if absent)".  The particular default values are not relied on
by any claim; only the fact that a definite default record exists is. -/
def ROP_FBXExportOptions.reset : ROP_FBXExportOptions where
  startNodePath := ["obj"]
  exportingBundles := false
  bundlesString := ""
  exportTakeName := ""
  exportDeformsAsVC := false
  convertAxisSystem := false
  axisSystem := ROP_FBXAxisSystem.Current
  convertUnits := false
  convertUnitTo := UnitTarget.UNIT_CM
  exportInAscii := false
  version := ""
  embedMedia := false
  exportClips := []

/-- `OP_OrientationMode` of the host (`OPgetDirector()->getOrientationMode()`). -/
inductive OrientationMode where
  | Y_UP
  | Z_UP
  deriving DecidableEq, Repr

/-- The FBX time modes (`FbxTime::EMode`) that `doExport` assigns. -/
inductive FbxTimeMode where
  | eFrames24
  | eFrames120
  | eFrames100
  | eFrames60
  | eFrames50
  | eFrames48
  | eFrames30
  | eNTSCFullFrame
  | ePAL
  | eFrames1000
  | eFilmFullFrame
  | eFrames96
  | eFrames72
  | eFrames59dot94
  | eCustom
  deriving DecidableEq, Repr

/-- The FBX axis systems `doExport` mentions, up to the numeric equalities the
source itself asserts (`Motionbuilder == MayaYUp == OpenGL`,
`Lightwave == DirectX`, `Max == MayaZUp`): one constructor per equivalence
class. -/
inductive FbxAxisSystem where
  | MayaYUp
  | MayaZUp
  | DirectX
  deriving DecidableEq, Repr

/-- Calls made to collaborators outside this source file (FBX SDK objects,
host scene graph, visitors), in the order the exporter makes them. -/
inductive FbxEvent where
  | addError (msg : String) (fatal : Bool)
  | takeSet (name : String)
  | setSceneInfo
  | setTimeMode (m : FbxTimeMode)
  | setCustomFrameRate (fps : ℚ)
  | setGlobalTimeMode (m : FbxTimeMode) (fps : ℚ)
  | setTimelineSpan (startFrame endFrame : ℚ)
  | visitSceneGeom (node : List String)
  | performInstancesAction
  | setAmbientColor
  | createAnimLayer (name : String) (id : Nat)
  | createAnimStack (name : String) (id : Nat)
  | stackAddLayer (stack layer : Nat)
  | setStackLocalSpan (stack : Nat) (startFrame endFrame : ℚ)
  | setStackRefSpan (stack : Nat) (startFrame endFrame : ℚ)
  | exportTRSAnimation
  | visitSceneAnim (node : List String)
  | performPostActions
  | setOriginalUpAxis (a : FbxAxisSystem)
  | axisConvertScene (a : FbxAxisSystem)
  | setAxisSystem (a : FbxAxisSystem)
  | setSystemUnit (scale : ℚ)
  | setOriginalSystemUnit (scale : ℚ)
  | unitConvertScene (scale : ℚ)
  | createSDKManager
  | createScene
  | destroyScene
  | destroySDKManager
  | writerCreate
  | writerSetVersion (v : String)
  | writerInit (file : String) (format : Int)
  | writerSetEmbedMedia (b : Bool)
  | writerWrite
  | writerDestroy
  | deallocString (id : Nat)
  | createNullNode (name : String) (id : Nat)
  | setStandardTransforms (id : Nat)
  | addChildToSceneRoot (id : Nat)
  | addNodePair (hostNode : List String) (fbxNode : Nat)
  deriving DecidableEq, Repr

/-- The host application and SDK environment an export runs against: the scene
graph (existing node paths), the bundle list, channel-manager settings, the
take manager's current take, and the outcomes of the external calls whose
results the exporter branches on (interruption, visitor cancellation, writer
formats and writer success).  Functions model external utilities
(`UT_String::multiMatch`, `CHgetFrameFromTime`,
`ROP_FBXNodeManager::makeNameUnique`). -/
structure HostScene where
  nodes : List (List String)
  bundles : List (String × List (List String))
  multiMatch : String → String → Bool
  orientation : OrientationMode
  samplesPerSec : ℚ
  unitLength : ℚ
  currentTakeName : String
  frameFromTime : ℚ → ℚ
  makeUnique : String → String
  interrupted : Bool
  geomCancel : Bool
  animCancel : Bool
  hasInstancesAction : Bool
  sdkCreateOk : Bool
  writerFormats : List (String × Bool)
  writerInitOk : Bool
  writerExportOk : Bool
  writerStatusString : String

/-- `OPgetDirector()->findNode(path)`: the node exists in the host scene or
not. -/
def findNode (h : HostScene) (path : List String) : Option (List String) :=
  if path ∈ h.nodes then some path else none

/-- `OP_Node::getIsContainedBy`: `net` is a proper ancestor of `node`, i.e. a
proper prefix of its path. -/
def getIsContainedBy (node net : List String) : Bool :=
  decide (net = node.take net.length) && decide (net.length < node.length)

/-- Renders a path for error messages, as `getFullPath` would
(`[] = "/"`, `["obj","a"] = "/obj/a"`). -/
def pathString (p : List String) : String :=
  "/" ++ String.intercalate "/" p

/-- The member variables of `ROP_FBXExporter`, plus the contents of the node
manager it owns.  FBX objects are identified by the order of their creation
(`nextId` is the next fresh identifier). -/
structure ExporterState where
  mySDKManager : Option Nat
  myScene : Option Nat
  myNodeManagerAlive : Bool
  myBundledNodes : List (List String)
  myNodePairs : List (List String × Nat)
  myActionManagerAlive : Bool
  myDummyRootNullNode : Option Nat
  myDidCancel : Bool
  myErrors : List (String × Bool)
  myStartTime : ℚ
  myEndTime : ℚ
  myExportOptions : ROP_FBXExportOptions
  myOutputFile : String
  myStringsToDeallocate : List Nat
  nextId : Nat
  deriving DecidableEq, Repr

/-- `ROP_FBXExporter::getExportingAnimation` (lines 751-755): the time range
is non-degenerate. -/
def getExportingAnimation (st : ExporterState) : Bool :=
  decide (¬ (st.myStartTime = st.myEndTime))

/-- The `/obj` network node, `OPgetDirector()->findNode("/obj")` — the global
object root, which always exists in a Houdini session. -/
def objNetPath : List String := ["obj"]

/-- One step of the `while` loop of `doExport` (lines 212-213): starting from
network `t`, walk `getParent()` links until `t` is the object root or
contains `node`.  Fuel bounds the walk by the depth of `t`; the parent of a
path is `dropLast`. -/
def walkUpAux (objNet node : List String) : Nat → List String → List String
  | 0, t => t
  | fuel + 1, t =>
    if t = objNet ∨ getIsContainedBy node t then t
    else walkUpAux objNet node fuel t.dropLast

/-- The whole `while` loop (lines 211-214): find the parent network of `t`
which contains `node`, stopping at the object root. -/
def walkUp (objNet node t : List String) : List String :=
  walkUpAux objNet node t.length t

/-- The body of the per-node loop of the bundle scan (lines 203-214):
`top_network` is `none` as long as no node has supplied a first candidate
(`bundle_node->getParent()`, rejected unless it is contained by the object
root); afterwards each node walks the candidate upward. -/
def bundleAccStep (objNet : List String) (acc : Option (List String))
    (node : List String) : Option (List String) :=
  match acc with
  | none =>
    let p := node.dropLast
    if getIsContainedBy p objNet then some p else none
  | some t => some (walkUp objNet node t)

/-- Lines 181-219 reduced to the matched node list: fold the per-node loop
over all nodes of all matching bundles, defaulting to the object root when
the fold produced no network (line 218-219). -/
def resolveTopNetwork (objNet : List String) (matched : List (List String)) :
    List String :=
  (matched.foldl (bundleAccStep objNet) none).getD objNet

/-- `bundle_names.strip("@")` (line 173): every `@` removed from the bundle
pattern string. -/
def strippedBundlePattern (s : String) : String :=
  String.mk (s.data.filter (fun c => ¬ (c = '@')))

/-- The nodes of all bundles whose name matches the stripped pattern, in
bundle order then member order (lines 183-201). -/
def matchedBundleNodes (h : HostScene) (pattern : String) :
    List (List String) :=
  (h.bundles.filter (fun b => h.multiMatch b.1 pattern)).foldr
    (fun b acc => b.2 ++ acc) []

/-- The start network a bundle export resolves (lines 166-224): the common
network of all nodes of all bundles matching the options' bundle pattern. -/
def topNetworkOf (h : HostScene) (bundlesString : String) : List String :=
  resolveTopNetwork objNetPath
    (matchedBundleNodes h (strippedBundlePattern bundlesString))

/-- The bundle block of `doExport` (lines 166-225): when bundle export is
requested, record every matched node with the node manager
(`addBundledNode`) and overwrite the options' start node path with the
resolved top network (`setStartNodePath`). -/
def bundleStep (h : HostScene) (st : ExporterState) : ExporterState :=
  if st.myExportOptions.exportingBundles then
    let pattern := strippedBundlePattern st.myExportOptions.bundlesString
    let matched := matchedBundleNodes h pattern
    { st with
      myBundledNodes := st.myBundledNodes ++ matched
      myExportOptions :=
        { st.myExportOptions with
          startNodePath := resolveTopNetwork objNetPath matched } }
  else st

/-- The frame-rate `if`/`else if` chain of `doExport` (lines 320-351), in
source order: the time mode for the host's samples-per-second rate,
`eCustom` when no comparison holds. -/
def timeModeOfFps (fps : ℚ) : FbxTimeMode :=
  if fps = 24 then FbxTimeMode.eFrames24
  else if fps = 120 then FbxTimeMode.eFrames120
  else if fps = 100 then FbxTimeMode.eFrames100
  else if fps = 60 then FbxTimeMode.eFrames60
  else if fps = 50 then FbxTimeMode.eFrames50
  else if fps = 48 then FbxTimeMode.eFrames48
  else if fps = 30 then FbxTimeMode.eFrames30
  else if fps = mkRat 2997 100 then FbxTimeMode.eNTSCFullFrame
  else if fps = 25 then FbxTimeMode.ePAL
  else if fps = 1000 then FbxTimeMode.eFrames1000
  else if fps = mkRat 23976 1000 then FbxTimeMode.eFilmFullFrame
  else if fps = 96 then FbxTimeMode.eFrames96
  else if fps = 72 then FbxTimeMode.eFrames72
  else if fps = mkRat 5994 100 then FbxTimeMode.eFrames59dot94
  else FbxTimeMode.eCustom

/-- The time-settings block of `doExport` (lines 317-362, run only for a
non-degenerate time range): set the scene time mode, record the custom frame
rate, set the global time mode, and set the default timeline span from the
frames of the export's start and end times. -/
def timeEvents (h : HostScene) (st : ExporterState) : List FbxEvent :=
  let fps := h.samplesPerSec
  let m := timeModeOfFps fps
  [FbxEvent.setTimeMode m, FbxEvent.setCustomFrameRate fps,
   FbxEvent.setGlobalTimeMode m fps,
   FbxEvent.setTimelineSpan (h.frameFromTime st.myStartTime)
     (h.frameFromTime st.myEndTime)]

/-- The scene axis system read off the host orientation mode
(lines 451-460). -/
def sceneAxisOf : OrientationMode → FbxAxisSystem
  | OrientationMode.Y_UP => FbxAxisSystem.MayaYUp
  | OrientationMode.Z_UP => FbxAxisSystem.MayaZUp

/-- The target axis system of an options choice (the `switch` at
lines 465-484; the `Current` arm is the asserted-unreachable fallback to the
scene's axis system, and the same mapping is used by the no-conversion
`switch` at lines 494-508). -/
def targetAxisOf (sceneAxis : FbxAxisSystem) : ROP_FBXAxisSystem → FbxAxisSystem
  | ROP_FBXAxisSystem.YUp_RightHanded => FbxAxisSystem.MayaYUp
  | ROP_FBXAxisSystem.YUp_LeftHanded => FbxAxisSystem.DirectX
  | ROP_FBXAxisSystem.ZUp_RightHanded => FbxAxisSystem.MayaZUp
  | ROP_FBXAxisSystem.Current => sceneAxis

/-- The axis-system block of `doExport` (lines 450-509): when axis conversion
is requested (and the target is not `Current`), convert the scene only if the
target differs from the scene's axis system, recording the original up axis
first; otherwise set the axis system without conversion. -/
def axisEvents (h : HostScene) (opts : ROP_FBXExportOptions) : List FbxEvent :=
  let sceneAxis := sceneAxisOf h.orientation
  if opts.convertAxisSystem ∧ ¬ (opts.axisSystem = ROP_FBXAxisSystem.Current) then
    let target := targetAxisOf sceneAxis opts.axisSystem
    if ¬ (target = sceneAxis) then
      [FbxEvent.setOriginalUpAxis sceneAxis, FbxEvent.axisConvertScene target]
    else []
  else
    [FbxEvent.setAxisSystem (targetAxisOf sceneAxis opts.axisSystem)]

/-- `FbxSystemUnit` scale factors in centimeters of the `UNIT_*` targets
(`FbxSystemUnit::mm` through `FbxSystemUnit::Mile`, used at lines 520-548). -/
def unitScale : UnitTarget → ℚ
  | UnitTarget.UNIT_MM => mkRat 1 10
  | UnitTarget.UNIT_CM => 1
  | UnitTarget.UNIT_DM => 10
  | UnitTarget.UNIT_M => 100
  | UnitTarget.UNIT_KM => 100000
  | UnitTarget.UNIT_IN => mkRat 254 100
  | UnitTarget.UNIT_YA => mkRat 9144 100
  | UnitTarget.UNIT_ML => mkRat 1609344 10

/-- The unit-system block of `doExport` (lines 511-550): when unit conversion
is requested, set the scene's current and original system units to the host
unit length as a scale-to-centimeters factor, then convert the scene to the
requested target unit. -/
def unitEvents (h : HostScene) (opts : ROP_FBXExportOptions) : List FbxEvent :=
  if opts.convertUnits then
    let hou := h.unitLength * 100
    [FbxEvent.setSystemUnit hou, FbxEvent.setOriginalSystemUnit hou,
     FbxEvent.unitConvertScene (unitScale opts.convertUnitTo)]
  else []

/-- The per-clip loop of the animation block (lines 407-420): for each export
clip, create a stack named after the clip, add the layer as a member, and set
the stack's local and reference time spans to the clip's frame range.  Stack
identifiers are allocated in order from `nid`. -/
def clipStackEvents (layer : Nat) : List ROP_FBXExportClip → Nat → List FbxEvent
  | [], _ => []
  | c :: rest, nid =>
    [FbxEvent.createAnimStack c.name nid, FbxEvent.stackAddLayer nid layer,
     FbxEvent.setStackLocalSpan nid c.start_frame c.end_frame,
     FbxEvent.setStackRefSpan nid c.start_frame c.end_frame] ++
    clipStackEvents layer rest (nid + 1)

/-- The animation pass of `doExport` (lines 394-444): create the single
animation layer, then either one stack per export clip (with explicit time
spans) or, with no clips, a single stack named after the current take (with
no time span set); export the dummy world-root animation when that node
exists, then run the animation visitor, whose cancellation outcome becomes
the exporter's.  `currTake` is the take current at this point (the export
take when one was set, the host's current take otherwise). -/
def animBlock (h : HostScene) (st : ExporterState) (currTake : String)
    (geomNode : List String) : ExporterState × List FbxEvent :=
  let layerId := st.nextId
  let clips := st.myExportOptions.exportClips
  let stackPart :=
    if ¬ (clips = []) then (clipStackEvents layerId clips (layerId + 1), layerId + 1 + clips.length)
    else ([FbxEvent.createAnimStack currTake (layerId + 1),
           FbxEvent.stackAddLayer (layerId + 1) layerId], layerId + 2)
  let trsEvs :=
    if st.myDummyRootNullNode.isSome then [FbxEvent.exportTRSAnimation] else []
  ({ st with nextId := stackPart.2, myDidCancel := h.animCancel },
   FbxEvent.createAnimLayer "Base Layer" layerId ::
     (stackPart.1 ++ trsEvs ++ [FbxEvent.visitSceneAnim geomNode]))

/-- `doExport` from the take switch onward (lines 247-551): scene info, the
single-frame options tweak, the time-settings block, the start-node lookup
(with the one fatal error and early return when it fails), the geometry
visitor, the deferred instances action, and — when the geometry pass was not
cancelled — the ambient color, the animation pass, the post-actions (skipped
when the animation pass cancelled) and the axis and unit blocks. -/
def doExportMain (h : HostScene) (st : ExporterState) (currTake : String) :
    ExporterState × List FbxEvent :=
  let evs0 := [FbxEvent.setSceneInfo]
  let singleFrame := st.myStartTime = st.myEndTime
  let st := if singleFrame then
      { st with myExportOptions :=
        { st.myExportOptions with exportDeformsAsVC := false } }
    else st
  let evs1 := if singleFrame then [] else timeEvents h st
  match findNode h st.myExportOptions.startNodePath with
  | none =>
    let msg := "Could not find the start node specified [ " ++
      pathString st.myExportOptions.startNodePath ++ " ]"
    ({ st with myErrors := st.myErrors ++ [(msg, true)] },
     evs0 ++ evs1 ++ [FbxEvent.addError msg true])
  | some geomNode =>
    let evs2 := [FbxEvent.visitSceneGeom geomNode]
    let st := { st with myDidCancel := h.geomCancel }
    let evs3 :=
      if h.hasInstancesAction then [FbxEvent.performInstancesAction] else []
    if st.myDidCancel then (st, evs0 ++ evs1 ++ evs2 ++ evs3)
    else
      let animPart :=
        if singleFrame then (st, []) else animBlock h st currTake geomNode
      let st := animPart.1
      let evs6 :=
        if st.myDidCancel then [] else [FbxEvent.performPostActions]
      (st, evs0 ++ evs1 ++ evs2 ++ evs3 ++ [FbxEvent.setAmbientColor] ++
        animPart.2 ++ evs6 ++ axisEvents h st.myExportOptions ++
        unitEvents h st.myExportOptions)

/-- `ROP_FBXExporter::doExport` (lines 154-552): nothing on an already
interrupted session; otherwise the bundle block, the take switch (restored on
every exit by `UT_SCOPE_EXIT`), and the main body. -/
def doExport (h : HostScene) (st : ExporterState) :
    ExporterState × List FbxEvent :=
  if h.interrupted then (st, [])
  else
    let st := bundleStep h st
    let takeName := st.myExportOptions.exportTakeName
    let preEvs := if ¬ (takeName = "") then [FbxEvent.takeSet takeName] else []
    let currTake := if ¬ (takeName = "") then takeName else h.currentTakeName
    let restoreEvs :=
      if ¬ (takeName = "") then [FbxEvent.takeSet h.currentTakeName] else []
    let out := doExportMain h st currTake
    (out.1, preEvs ++ out.2 ++ restoreEvs)

/-- The version-string split of `finishExport` (lines 568-575):
`"NAME | VER"` is cut at the first `'|'` when that is not the first
character, into the text before the separator minus one character and the
text from two characters past it; otherwise both parts stay empty. -/
def versionSplit (full : String) : String × String :=
  match full.data.findIdx? (fun c => decide (c = '|')) with
  | some p =>
    if 0 < p then
      (String.mk (full.data.take (p - 1)), String.mk (full.data.drop (p + 2)))
    else ("", "")
  | none => ("", "")

/-- The writer-format scan of `finishExport` (lines 586-601): the first
registered writer format that is an FBX writer and whose description starts
with the requested name, `-1` when none does. -/
def findWriterFormat (name : String) : List (String × Bool) → Nat → Int
  | [], _ => (-1 : Int)
  | (desc, isFBX) :: rest, i =>
    if isFBX ∧ name.length ≤ desc.length ∧
        name = String.mk (desc.data.take name.length) then
      Int.ofNat i
    else findWriterFormat name rest (i + 1)

/-- The full writer name `finishExport` matches against (lines 577-584):
the split-off exporter name, `"FBX"` when empty, with `" ascii"` or
`" binary"` appended. -/
def writerName (opts : ROP_FBXExportOptions) : String :=
  let nm := (versionSplit opts.version).1
  let nm := if nm.length = 0 then "FBX" else nm
  nm ++ (if opts.exportInAscii then " ascii" else " binary")

/-- The error message of a failed `FbxExporter::Export` (line 641). -/
def writeFailMsg (h : HostScene) : String :=
  "FbxExporter::Initialize() failed. " ++ "Error returned: " ++
    h.writerStatusString

/-- The unconditional teardown at the end of `finishExport` (lines 648-668):
destroy the scene and the SDK manager when they exist, null both handles,
drain the queued temporary strings, and delete the node and action
managers. -/
def cleanupRun (st : ExporterState) : ExporterState × List FbxEvent :=
  ({ st with myScene := none, mySDKManager := none,
             myStringsToDeallocate := [], myNodeManagerAlive := false,
             myActionManagerAlive := false },
   (if st.myScene.isSome then [FbxEvent.destroyScene] else []) ++
   (if st.mySDKManager.isSome then [FbxEvent.destroySDKManager] else []) ++
   st.myStringsToDeallocate.map FbxEvent.deallocString)

/-- `ROP_FBXExporter::finishExport` (lines 554-695): when the export was not
cancelled, create the FBX exporter, resolve the output format and version,
initialize the writer — returning `false` at once when that fails, before
any teardown — set the embed-media option, write the scene (recording a
fatal error when the write fails), and destroy the exporter; then the
teardown block, reached from every path except the failed writer
initialization.  Returns the write success flag. -/
def finishExport (h : HostScene) (st : ExporterState) :
    Bool × ExporterState × List FbxEvent :=
  if st.myDidCancel then
    let c := cleanupRun st
    (false, c.1, c.2)
  else
    let ver := (versionSplit st.myExportOptions.version).2
    let nm := writerName st.myExportOptions
    let fmt := findWriterFormat nm h.writerFormats 0
    let evsA := [FbxEvent.writerCreate] ++
      (if 0 < ver.length then [FbxEvent.writerSetVersion ver] else []) ++
      [FbxEvent.writerInit st.myOutputFile fmt]
    if ¬ h.writerInitOk then (false, st, evsA)
    else
      let ok := h.writerExportOk
      let errPart :=
        if ok then (st, ([] : List FbxEvent))
        else ({ st with myErrors := st.myErrors ++ [(writeFailMsg h, true)] },
              [FbxEvent.addError (writeFailMsg h) true])
      let c := cleanupRun errPart.1
      (ok, c.1,
       evsA ++ [FbxEvent.writerSetEmbedMedia st.myExportOptions.embedMedia,
                FbxEvent.writerWrite] ++ errPart.2 ++
         [FbxEvent.writerDestroy] ++ c.2)

/-- `ROP_FBXExporter::initializeExport` (lines 102-152): `false` at once on a
null output name, touching nothing; otherwise drain the queued strings,
reset the error sink, store the time range and the options (defaults when
absent), create fresh node and action managers, create the SDK manager —
`false` when that fails — create the scene, store the output name, and clear
the cancel flag and the dummy root node. -/
def initializeExport (output : Option String) (tstart tend : ℚ)
    (opts : Option ROP_FBXExportOptions) (h : HostScene)
    (st : ExporterState) : Bool × ExporterState × List FbxEvent :=
  match output with
  | none => (false, st, [])
  | some out =>
    let dealloc := st.myStringsToDeallocate.map FbxEvent.deallocString
    let st := { st with
      myStringsToDeallocate := []
      myErrors := []
      myStartTime := tstart
      myEndTime := tend
      myExportOptions := opts.getD ROP_FBXExportOptions.reset
      myNodeManagerAlive := true
      myBundledNodes := []
      myNodePairs := []
      myActionManagerAlive := true }
    let evs := dealloc ++ [FbxEvent.createSDKManager]
    if ¬ h.sdkCreateOk then (false, { st with mySDKManager := none }, evs)
    else
      let st := { st with mySDKManager := some st.nextId, nextId := st.nextId + 1 }
      let st := { st with
        myScene := some st.nextId
        nextId := st.nextId + 1
        myOutputFile := out
        myDidCancel := false
        myDummyRootNullNode := none }
      (true, st, evs ++ [FbxEvent.createScene])

/-- A reference to an FBX node as `getFBXRootNode` returns one: the scene's
root node or a created node. -/
inductive FbxNodeRef where
  | sceneRoot
  | fbxNode (id : Nat)
  deriving DecidableEq, Repr

/-- `ROP_FBXExporter::getFBXRootNode` (lines 774-831): the scene root for the
standard cases (root export path, missing export node, the asking node being
the export node itself, a root-level parent network, or no subnet root
requested); otherwise the dummy `world_root` null node, created, attached
under the scene root and registered with the node manager on the first such
call only. -/
def getFBXRootNode (h : HostScene) (st : ExporterState)
    (askingNode : List String) (createSubnetRoot : Bool) :
    FbxNodeRef × ExporterState × List FbxEvent :=
  let exportPath := st.myExportOptions.startNodePath
  if exportPath = [] then (FbxNodeRef.sceneRoot, st, [])
  else
    match findNode h exportPath with
    | none => (FbxNodeRef.sceneRoot, st, [])
    | some exportNode =>
      if askingNode = exportNode then (FbxNodeRef.sceneRoot, st, [])
      else if exportNode.dropLast = [] then (FbxNodeRef.sceneRoot, st, [])
      else if ¬ createSubnetRoot then (FbxNodeRef.sceneRoot, st, [])
      else
        match st.myDummyRootNullNode with
        | some d => (FbxNodeRef.fbxNode d, st, [])
        | none =>
          let nm := h.makeUnique "world_root"
          let nid := st.nextId
          (FbxNodeRef.fbxNode nid,
           { st with myDummyRootNullNode := some nid, nextId := nid + 1,
                     myNodePairs := st.myNodePairs ++ [(exportNode, nid)] },
           [FbxEvent.createNullNode nm nid, FbxEvent.setStandardTransforms nid,
            FbxEvent.addChildToSceneRoot nid, FbxEvent.addNodePair exportNode nid])

/-- The guard chain of `getFBXRootNode` that leads to the dummy subnet root
(the negations of all five early returns at lines 784-807). -/
def requiresSubnetRoot (h : HostScene) (st : ExporterState)
    (askingNode : List String) (createSubnetRoot : Bool) : Bool :=
  let exportPath := st.myExportOptions.startNodePath
  decide (¬ (exportPath = [])) &&
    (match findNode h exportPath with
     | none => false
     | some exportNode =>
       decide (¬ (askingNode = exportNode)) &&
         decide (¬ (exportNode.dropLast = [])) && createSubnetRoot)

/-- Writer (`FbxExporter`) calls in a trace. -/
def isWriterEv : FbxEvent → Bool
  | FbxEvent.writerCreate => true
  | FbxEvent.writerSetVersion _ => true
  | FbxEvent.writerInit _ _ => true
  | FbxEvent.writerSetEmbedMedia _ => true
  | FbxEvent.writerWrite => true
  | FbxEvent.writerDestroy => true
  | _ => false

/-- Whether a trace initializes the writer against an output file. -/
def hasWriterInitEv (tr : List FbxEvent) : Bool :=
  tr.any (fun e => match e with
    | FbxEvent.writerInit _ _ => true
    | _ => false)

/-- Whether a trace asks the writer to write the scene to disk. -/
def hasWriterWriteEv (tr : List FbxEvent) : Bool :=
  tr.any (fun e => match e with
    | FbxEvent.writerWrite => true
    | _ => false)

/-- Scene-population calls (the visitors and their deferred actions). -/
def isPopulateEv : FbxEvent → Bool
  | FbxEvent.visitSceneGeom _ => true
  | FbxEvent.visitSceneAnim _ => true
  | FbxEvent.performInstancesAction => true
  | FbxEvent.performPostActions => true
  | _ => false

/-- Animation-data calls: layer and stack creation, stack membership and
spans, and the animation visitor invocations that bake curves. -/
def isAnimEv : FbxEvent → Bool
  | FbxEvent.createAnimLayer _ _ => true
  | FbxEvent.createAnimStack _ _ => true
  | FbxEvent.stackAddLayer _ _ => true
  | FbxEvent.setStackLocalSpan _ _ _ => true
  | FbxEvent.setStackRefSpan _ _ _ => true
  | FbxEvent.exportTRSAnimation => true
  | FbxEvent.visitSceneAnim _ => true
  | _ => false

/-- The animation events claim C7 talks about: layer creation, stack
creation, and explicit stack time spans. -/
def isAnimCoreEv : FbxEvent → Bool
  | FbxEvent.createAnimLayer _ _ => true
  | FbxEvent.createAnimStack _ _ => true
  | FbxEvent.setStackLocalSpan _ _ _ => true
  | FbxEvent.setStackRefSpan _ _ _ => true
  | _ => false

/-- Axis conversion transforms applied to the scene. -/
def isAxisConvEv : FbxEvent → Bool
  | FbxEvent.axisConvertScene _ => true
  | _ => false

/-- Writes of the "original axis" record. -/
def isOrigUpAxisEv : FbxEvent → Bool
  | FbxEvent.setOriginalUpAxis _ => true
  | _ => false

/-- Scene/manager destruction calls. -/
def isDestroyEv : FbxEvent → Bool
  | FbxEvent.destroyScene => true
  | FbxEvent.destroySDKManager => true
  | _ => false

/-- Queued-string deallocations. -/
def isDeallocEv : FbxEvent → Bool
  | FbxEvent.deallocString _ => true
  | _ => false

/-- The fixed frame-rate table exactly as the spec lists it — "(24, 23.976,
25, 29.97, 30, 48, 50, 59.94, 60, 72, 96, 100, 120, 1000 fps)" — with each
rate's FBX enumeration value; written from the claim, to be compared with
`timeModeOfFps`, which is written from the source. -/
def specFrameRateTable : List (ℚ × FbxTimeMode) :=
  [(24, FbxTimeMode.eFrames24), (mkRat 23976 1000, FbxTimeMode.eFilmFullFrame),
   (25, FbxTimeMode.ePAL), (mkRat 2997 100, FbxTimeMode.eNTSCFullFrame),
   (30, FbxTimeMode.eFrames30), (48, FbxTimeMode.eFrames48),
   (50, FbxTimeMode.eFrames50), (mkRat 5994 100, FbxTimeMode.eFrames59dot94),
   (60, FbxTimeMode.eFrames60), (72, FbxTimeMode.eFrames72),
   (96, FbxTimeMode.eFrames96), (100, FbxTimeMode.eFrames100),
   (120, FbxTimeMode.eFrames120), (1000, FbxTimeMode.eFrames1000)]

/-- First-match lookup in a rate table: the claim's "the first exact match
determines the scene's time mode". -/
def specLookup (fps : ℚ) : List (ℚ × FbxTimeMode) → FbxTimeMode
  | [] => FbxTimeMode.eCustom
  | (r, m) :: rest => if fps = r then m else specLookup fps rest

/-- The claim's mapping rule: the first table entry equal to the rate wins;
a rate matching no entry yields the custom mode. -/
def specTimeModeOf (fps : ℚ) : FbxTimeMode :=
  specLookup fps specFrameRateTable

/-- Modelled from the spec: the FBX SDK's unit semantics, which are not part
of this repository's sources.  `FbxGlobalSettings::SetSystemUnit` updates the
scene's unit record without touching geometry, and
`FbxSystemUnit::ConvertScene` rescales the scene by the ratio of the current
unit scale to the target's and leaves the scene in the target unit — "host
unit length is read as a scale-to-centimeters factor; … the scene is rescaled
to the requested absolute unit".  The fold returns the scene's final unit
scale and the ratio applied by each conversion (a ratio of 1 is a no-op
conversion: nothing is rescaled). -/
def unitStateFold (s : ℚ × List ℚ) (e : FbxEvent) : ℚ × List ℚ :=
  match e with
  | FbxEvent.setSystemUnit q => (q, s.2)
  | FbxEvent.unitConvertScene q => (q, s.2 ++ [s.1 / q])
  | _ => s

/-- The ratios by which a trace's unit conversions rescale the scene, in
order (the scene starts in the SDK default, centimeters, scale 1). -/
def rescaleRatios (tr : List FbxEvent) : List ℚ :=
  (tr.foldl unitStateFold (1, [])).2

/-- The scene's unit scale after a trace. -/
def finalSceneUnit (tr : List FbxEvent) : ℚ :=
  (tr.foldl unitStateFold (1, [])).1

/-- The animation events the amended claim C7 describes, written from the
claim's words: one animation layer; then one stack per enumerated clip,
named after the clip, its local and reference time spans set to the clip's
frame range — or, with no clips, a single stack named after the current
take, with no explicit time span. -/
def claimedClipStacks : List ROP_FBXExportClip → Nat → List FbxEvent
  | [], _ => []
  | c :: rest, nid =>
    [FbxEvent.createAnimStack c.name nid,
     FbxEvent.setStackLocalSpan nid c.start_frame c.end_frame,
     FbxEvent.setStackRefSpan nid c.start_frame c.end_frame] ++
    claimedClipStacks rest (nid + 1)

/-- See `claimedClipStacks`. -/
def claimedAnimEvents (clips : List ROP_FBXExportClip) (takeName : String)
    (baseId : Nat) : List FbxEvent :=
  FbxEvent.createAnimLayer "Base Layer" baseId ::
    (if clips = [] then [FbxEvent.createAnimStack takeName (baseId + 1)]
     else claimedClipStacks clips (baseId + 1))

/-! Helper lemmas about containment and the parent walk, used to settle the
bundle-root claim. -/

theorem contained_nil (node : List String) (h : ¬ (node = [])) :
    getIsContainedBy node [] = true := by
  simp [getIsContainedBy, List.length_pos, h]

theorem ne_nil_of_parent_contained (m objNet : List String)
    (h : getIsContainedBy m.dropLast objNet = true) : ¬ (m = []) := by
  intro he
  subst he
  simp [getIsContainedBy] at h

theorem contained_of_take (m t : List String) (k : Nat)
    (h : getIsContainedBy m t = true) :
    getIsContainedBy m (t.take k) = true := by
  unfold getIsContainedBy at h ⊢
  simp only [Bool.and_eq_true, decide_eq_true_eq] at h ⊢
  obtain ⟨h1, h2⟩ := h
  have hlen : (t.take k).length = min k t.length := List.length_take k t
  constructor
  · conv_lhs => rw [h1]
    rw [List.take_take, hlen]
  · omega

theorem walkUpAux_take (objNet node : List String) :
    ∀ (fuel : Nat) (t : List String),
      ∃ k, walkUpAux objNet node fuel t = t.take k := by
  intro fuel
  induction fuel with
  | zero =>
    intro t
    exact ⟨t.length, by simp [walkUpAux]⟩
  | succ n ih =>
    intro t
    unfold walkUpAux
    split
    · exact ⟨t.length, by simp⟩
    · obtain ⟨k, hk⟩ := ih t.dropLast
      refine ⟨min k (t.length - 1), ?_⟩
      rw [hk, List.dropLast_eq_take, List.take_take]

theorem walkUpAux_stops (objNet node : List String) (hnode : ¬ (node = [])) :
    ∀ (fuel : Nat) (t : List String), t.length ≤ fuel →
      walkUpAux objNet node fuel t = objNet ∨
        getIsContainedBy node (walkUpAux objNet node fuel t) = true := by
  intro fuel
  induction fuel with
  | zero =>
    intro t ht
    have h0 : t = [] := List.eq_nil_of_length_eq_zero (Nat.le_zero.mp ht)
    subst h0
    right
    simpa [walkUpAux] using contained_nil node hnode
  | succ n ih =>
    intro t ht
    unfold walkUpAux
    split
    · rename_i hcond
      rcases hcond with hc | hc
      · exact Or.inl hc
      · exact Or.inr hc
    · rename_i hcond
      push_neg at hcond
      have htne : ¬ (t = []) := by
        intro h0
        subst h0
        exact absurd (contained_nil node hnode) (by simpa using hcond.2)
      have hlen : t.dropLast.length ≤ n := by
        rw [List.length_dropLast]
        have := List.length_pos.mpr htne
        omega
      exact ih t.dropLast hlen

theorem walkUp_take (objNet node t : List String) :
    ∃ k, walkUp objNet node t = t.take k :=
  walkUpAux_take objNet node t.length t

theorem walkUp_stops (objNet node t : List String) (hnode : ¬ (node = [])) :
    walkUp objNet node t = objNet ∨
      getIsContainedBy node (walkUp objNet node t) = true :=
  walkUpAux_stops objNet node hnode t.length t (Nat.le_refl _)

theorem walkUp_preserves (objNet node t m : List String)
    (h : getIsContainedBy m t = true) :
    getIsContainedBy m (walkUp objNet node t) = true := by
  obtain ⟨k, hk⟩ := walkUp_take objNet node t
  rw [hk]
  exact contained_of_take m t k h

theorem walkUp_objNet (objNet node : List String) :
    walkUp objNet node objNet = objNet := by
  unfold walkUp
  cases objNet with
  | nil => simp [walkUpAux]
  | cons a l => simp [walkUpAux]

theorem foldl_bundleAccStep_some (objNet : List String) :
    ∀ (l : List (List String)) (t : List String),
      l.foldl (bundleAccStep objNet) (some t) =
        some (l.foldl (fun acc n => walkUp objNet n acc) t) := by
  intro l
  induction l with
  | nil => intro t; rfl
  | cons n rest ih =>
    intro t
    simp only [List.foldl_cons, bundleAccStep]
    exact ih (walkUp objNet n t)

theorem walkFold_objNet (objNet : List String) :
    ∀ (l : List (List String)),
      l.foldl (fun acc n => walkUp objNet n acc) objNet = objNet := by
  intro l
  induction l with
  | nil => rfl
  | cons n rest ih =>
    simp only [List.foldl_cons, walkUp_objNet]
    exact ih

theorem walkFold_sound (objNet : List String) :
    ∀ (l : List (List String)) (t : List String), (∀ n ∈ l, ¬ (n = [])) →
      l.foldl (fun acc n => walkUp objNet n acc) t = objNet ∨
        ((∀ n ∈ l, getIsContainedBy n
            (l.foldl (fun acc n => walkUp objNet n acc) t) = true) ∧
         (∀ m, getIsContainedBy m t = true →
            getIsContainedBy m
              (l.foldl (fun acc n => walkUp objNet n acc) t) = true)) := by
  intro l
  induction l with
  | nil =>
    intro t _
    right
    exact ⟨by simp, fun m hm => hm⟩
  | cons n rest ih =>
    intro t hne
    simp only [List.foldl_cons]
    rcases walkUp_stops objNet n t (hne n (by simp)) with hstop | hcont
    · rw [hstop, walkFold_objNet]
      exact Or.inl rfl
    · rcases ih (walkUp objNet n t) (fun m hm => hne m (by simp [hm])) with
        hobj | ⟨hall, hpres⟩
      · exact Or.inl hobj
      · right
        refine ⟨?_, ?_⟩
        · intro m hm
          rcases List.mem_cons.mp hm with heq | hmem
          · subst heq
            exact hpres m hcont
          · exact hall m hmem
        · intro m hm
          exact hpres m (walkUp_preserves objNet n t m hm)

theorem contained_dropLast (n : List String) (h : ¬ (n = [])) :
    getIsContainedBy n n.dropLast = true := by
  unfold getIsContainedBy
  simp only [Bool.and_eq_true, decide_eq_true_eq]
  have hp := List.length_pos.mpr h
  constructor
  · rw [List.length_dropLast, List.dropLast_eq_take]
  · rw [List.length_dropLast]
    omega

theorem resolveTopNetwork_sound (objNet : List String)
    (matched : List (List String))
    (h : ∀ n ∈ matched, getIsContainedBy n.dropLast objNet = true) :
    resolveTopNetwork objNet matched = objNet ∨
      ∀ n ∈ matched,
        getIsContainedBy n (resolveTopNetwork objNet matched) = true := by
  cases matched with
  | nil => exact Or.inl rfl
  | cons n rest =>
    have h1 : getIsContainedBy n.dropLast objNet = true := h n (by simp)
    have hne : ¬ (n = []) := ne_nil_of_parent_contained n objNet h1
    unfold resolveTopNetwork
    simp only [List.foldl_cons, bundleAccStep, h1, if_pos]
    rw [foldl_bundleAccStep_some]
    simp only [Option.getD_some]
    have hrest : ∀ m ∈ rest, ¬ (m = []) := fun m hm =>
      ne_nil_of_parent_contained m objNet (h m (by simp [hm]))
    rcases walkFold_sound objNet rest n.dropLast hrest with hobj | ⟨hall, hpres⟩
    · exact Or.inl hobj
    · right
      intro m hm
      rcases List.mem_cons.mp hm with heq | hmem
      · subst heq
        exact hpres m (contained_dropLast m hne)
      · exact hall m hmem

/-- The frame-rate chain of the source and the claim's table lookup agree on
every rate. -/
theorem timeMode_eq_spec (fps : ℚ) : timeModeOfFps fps = specTimeModeOf fps := by
  by_cases h1 : fps = 24
  · subst h1; decide
  by_cases h2 : fps = 120
  · subst h2; decide
  by_cases h3 : fps = 100
  · subst h3; decide
  by_cases h4 : fps = 60
  · subst h4; decide
  by_cases h5 : fps = 50
  · subst h5; decide
  by_cases h6 : fps = 48
  · subst h6; decide
  by_cases h7 : fps = 30
  · subst h7; decide
  by_cases h8 : fps = mkRat 2997 100
  · subst h8; decide
  by_cases h9 : fps = 25
  · subst h9; decide
  by_cases h10 : fps = 1000
  · subst h10; decide
  by_cases h11 : fps = mkRat 23976 1000
  · subst h11; decide
  by_cases h12 : fps = 96
  · subst h12; decide
  by_cases h13 : fps = 72
  · subst h13; decide
  by_cases h14 : fps = mkRat 5994 100
  · subst h14; decide
  unfold timeModeOfFps specTimeModeOf specFrameRateTable
  simp only [specLookup]
  rw [if_neg h1, if_neg h2, if_neg h3, if_neg h4, if_neg h5, if_neg h6,
    if_neg h7, if_neg h8, if_neg h9, if_neg h10, if_neg h11, if_neg h12,
    if_neg h13, if_neg h14]
  rw [if_neg h1, if_neg h11, if_neg h9, if_neg h8, if_neg h7, if_neg h6,
    if_neg h5, if_neg h14, if_neg h4, if_neg h13, if_neg h12, if_neg h3,
    if_neg h2, if_neg h10]

/-! Concrete host scenes and exporter states used by counterexamples and
witnesses. -/

/-- A small concrete Houdini session: geometry under `/obj`, two nested
networks `N1` and `N2`, a node outside the object root under `/mat`, and
three bundles. -/
def houHost : HostScene where
  nodes := [["obj"], ["obj", "geo1"], ["obj", "N1"], ["obj", "N1", "A"],
    ["obj", "N1", "N2"], ["obj", "N1", "N2", "B"], ["obj", "N1", "C"],
    ["mat"], ["mat", "A"]]
  bundles := [("b1", [["obj", "N1", "A"], ["obj", "N1", "N2", "B"]]),
    ("b2", [["obj", "N1", "A"], ["obj", "N1", "C"]]),
    ("bb", [["mat", "A"], ["obj", "N1", "N2", "B"]])]
  multiMatch := fun name pat => name == pat
  orientation := OrientationMode.Y_UP
  samplesPerSec := 24
  unitLength := 1
  currentTakeName := "Main"
  frameFromTime := fun t => t
  makeUnique := fun s => s
  interrupted := false
  geomCancel := false
  animCancel := false
  hasInstancesAction := false
  sdkCreateOk := true
  writerFormats := [("FBX binary (*.fbx)", true), ("FBX ascii (*.fbx)", true)]
  writerInitOk := true
  writerExportOk := true
  writerStatusString := "File write error"

/-- An exporter state as a fresh session leaves it after a successful
`initializeExport`: manager and scene created, no errors, no cancel. -/
def baseState : ExporterState where
  mySDKManager := some 0
  myScene := some 1
  myNodeManagerAlive := true
  myBundledNodes := []
  myNodePairs := []
  myActionManagerAlive := true
  myDummyRootNullNode := none
  myDidCancel := false
  myErrors := []
  myStartTime := 0
  myEndTime := 0
  myExportOptions := ROP_FBXExportOptions.reset
  myOutputFile := "out.fbx"
  myStringsToDeallocate := []
  nextId := 2

/-- A state whose string queue is non-empty and whose options carry an
explicit format/version string, about to be finished. -/
def c2State : ExporterState :=
  { baseState with
    myStringsToDeallocate := [7]
    myExportOptions :=
      { ROP_FBXExportOptions.reset with version := "FBX | FBX201600" } }

/-- C9: `initializeExport` with a null output-file name returns `false` at
once: the state (error sink, options, time range, handles) is untouched and
no external call — no manager or scene creation — is made. -/
theorem c9_null_output_untouched (tstart tend : ℚ)
    (opts : Option ROP_FBXExportOptions) (h : HostScene) (st : ExporterState) :
    initializeExport none tstart tend opts h st = (false, st, []) := rfl

/-- C3: the source's frame-rate chain agrees with the spec's fixed table
(first exact match wins, `eCustom` otherwise) on every rate; the
time-settings block sets the scene's time mode to the table's value and the
custom frame rate to the input rate exactly; and every non-interrupted
animated export's trace contains those two calls. -/
theorem c3_frame_rate_table (fps : ℚ) (h : HostScene) (st : ExporterState) :
    timeModeOfFps fps = specTimeModeOf fps ∧
    timeEvents h st =
      [FbxEvent.setTimeMode (specTimeModeOf h.samplesPerSec),
       FbxEvent.setCustomFrameRate h.samplesPerSec,
       FbxEvent.setGlobalTimeMode (specTimeModeOf h.samplesPerSec)
         h.samplesPerSec,
       FbxEvent.setTimelineSpan (h.frameFromTime st.myStartTime)
         (h.frameFromTime st.myEndTime)] ∧
    (h.interrupted = false → ¬ (st.myStartTime = st.myEndTime) →
      FbxEvent.setTimeMode (specTimeModeOf h.samplesPerSec)
          ∈ (doExport h st).2 ∧
      FbxEvent.setCustomFrameRate h.samplesPerSec ∈ (doExport h st).2) := by
  refine ⟨timeMode_eq_spec fps, by simp only [timeEvents, timeMode_eq_spec], ?_⟩
  intro hint hanim
  have hsf : ¬ ((bundleStep h st).myStartTime = (bundleStep h st).myEndTime) := by
    unfold bundleStep
    split <;> exact hanim
  unfold doExport
  simp only [hint, Bool.false_eq_true, if_false]
  unfold doExportMain
  simp only [hsf, if_false]
  cases hfn : findNode h (bundleStep h st).myExportOptions.startNodePath <;>
    simp only [hfn] <;>
    split_ifs <;>
    constructor <;>
    simp [List.mem_append, timeEvents, timeMode_eq_spec]

/-- C2 (code bug): at a state with live scene and manager handles and a
queued string, a failed writer initialization makes `finishExport` return
`false` without destroying the scene or the manager and without draining the
string queue — the early `return false` at line 629 skips the whole teardown
block. -/
theorem c2_writer_init_failure_skips_teardown :
    (finishExport { houHost with writerInitOk := false } c2State).1 = false ∧
    (finishExport { houHost with writerInitOk := false } c2State).2.1.myScene
      = some 1 ∧
    (finishExport { houHost with writerInitOk := false }
      c2State).2.1.mySDKManager = some 0 ∧
    (finishExport { houHost with writerInitOk := false }
      c2State).2.1.myStringsToDeallocate = [7] ∧
    (finishExport { houHost with writerInitOk := false }
      c2State).2.2.filter isDestroyEv = [] ∧
    (finishExport { houHost with writerInitOk := false }
      c2State).2.2.filter isDeallocEv = [] := by
  decide

/-- C6 (counterexample): bundle `"bb"` matches a node outside the object
root (`/mat/A`) and a node inside it; the loop resolves `/obj/N1/N2`, which
neither contains `/mat/A` nor is the object root — against the claim's
"walking parent links upward until reaching a network containing all matched
nodes so far, defaulting to the global object root". -/
theorem c6_outside_obj_counterexample :
    topNetworkOf houHost "bb" = ["obj", "N1", "N2"] ∧
    getIsContainedBy ["mat", "A"] ["obj", "N1", "N2"] = false ∧
    ¬ (["obj", "N1", "N2"] = objNetPath) ∧
    ("bb", [["mat", "A"], ["obj", "N1", "N2", "B"]]) ∈ houHost.bundles := by
  decide

/-- C6 (amended): when every matched node sits strictly below a network
inside the object root, the resolved start network is the object root or
contains every matched node; with no matched node it is the object root; and
in particular the two concrete scenarios of the claim hold (`b1`: nodes under
`N1` and under its child `N2` resolve to `N1`; `b2`: nodes all under `N1`
resolve to `N1`, not its parent). -/
theorem c6_bundle_root_resolution :
    (∀ matched : List (List String),
        (∀ n ∈ matched, getIsContainedBy n.dropLast objNetPath = true) →
        resolveTopNetwork objNetPath matched = objNetPath ∨
          ∀ n ∈ matched,
            getIsContainedBy n (resolveTopNetwork objNetPath matched) = true) ∧
    resolveTopNetwork objNetPath [] = objNetPath ∧
    topNetworkOf houHost "b1" = ["obj", "N1"] ∧
    topNetworkOf houHost "b2" = ["obj", "N1"] ∧
    ¬ (["obj", "N1"] = ["obj"]) := by
  refine ⟨fun matched h => resolveTopNetwork_sound objNetPath matched h,
    ?_, ?_, ?_, ?_⟩ <;> decide

/-- C6 (witness): the amended soundness statement applied to the concrete
matched list of bundle `b2`. -/
theorem c6_bundle_root_witness :
    resolveTopNetwork objNetPath [["obj", "N1", "A"], ["obj", "N1", "C"]]
        = objNetPath ∨
      ∀ n ∈ [["obj", "N1", "A"], ["obj", "N1", "C"]],
        getIsContainedBy n
          (resolveTopNetwork objNetPath
            [["obj", "N1", "A"], ["obj", "N1", "C"]]) = true :=
  c6_bundle_root_resolution.1 [["obj", "N1", "A"], ["obj", "N1", "C"]]
    (by decide)

/-! Preservation and block-level filter lemmas for the `doExport` trace. -/

theorem bundleStep_myStartTime (h : HostScene) (st : ExporterState) :
    (bundleStep h st).myStartTime = st.myStartTime := by
  unfold bundleStep; split <;> rfl

theorem bundleStep_myEndTime (h : HostScene) (st : ExporterState) :
    (bundleStep h st).myEndTime = st.myEndTime := by
  unfold bundleStep; split <;> rfl

theorem clipStackEvents_filter_empty (p : FbxEvent → Bool)
    (h1 : ∀ n s, p (FbxEvent.createAnimStack n s) = false)
    (h2 : ∀ a b, p (FbxEvent.stackAddLayer a b) = false)
    (h3 : ∀ s a b, p (FbxEvent.setStackLocalSpan s a b) = false)
    (h4 : ∀ s a b, p (FbxEvent.setStackRefSpan s a b) = false) :
    ∀ (clips : List ROP_FBXExportClip) (layer nid : Nat),
      (clipStackEvents layer clips nid).filter p = [] := by
  intro clips
  induction clips with
  | nil => intro layer nid; rfl
  | cons c rest ih =>
    intro layer nid
    simp [clipStackEvents, h1, h2, h3, h4, ih]

theorem axisEvents_filter_isAnimEv (h : HostScene) (o : ROP_FBXExportOptions) :
    (axisEvents h o).filter isAnimEv = [] := by
  simp only [axisEvents]
  split_ifs <;> rfl

theorem unitEvents_filter_isAnimEv (h : HostScene) (o : ROP_FBXExportOptions) :
    (unitEvents h o).filter isAnimEv = [] := by
  simp only [unitEvents]
  split_ifs <;> rfl

/-- C4: for every export whose options have start time equal to end time, the
`doExport` trace contains no animation event at all — no animation layer, no
animation stack, no stack membership or time span, and no animation-visitor
invocation (the calls that bake animation curves). -/
theorem c4_single_frame_no_animation (h : HostScene) (st : ExporterState)
    (heq : st.myStartTime = st.myEndTime) :
    (doExport h st).2.filter isAnimEv = [] := by
  have hsf : (bundleStep h st).myStartTime = (bundleStep h st).myEndTime := by
    rw [bundleStep_myStartTime, bundleStep_myEndTime]; exact heq
  cases hi : h.interrupted
  · unfold doExport
    simp only [hi, Bool.false_eq_true, if_false]
    unfold doExportMain
    simp only [hsf, eq_self_iff_true, if_true]
    cases hfn : findNode h (bundleStep h st).myExportOptions.startNodePath
    · simp only [hfn]
      split_ifs <;> rfl
    · simp only [hfn]
      split_ifs <;>
        simp only [List.filter_append, axisEvents_filter_isAnimEv,
          unitEvents_filter_isAnimEv] <;> rfl
  · simp [doExport, hi]

theorem bundleStep_convertAxisSystem (h : HostScene) (st : ExporterState) :
    (bundleStep h st).myExportOptions.convertAxisSystem
      = st.myExportOptions.convertAxisSystem := by
  unfold bundleStep; split <;> rfl

theorem bundleStep_axisSystem (h : HostScene) (st : ExporterState) :
    (bundleStep h st).myExportOptions.axisSystem
      = st.myExportOptions.axisSystem := by
  unfold bundleStep; split <;> rfl

theorem bundleStep_convertUnits (h : HostScene) (st : ExporterState) :
    (bundleStep h st).myExportOptions.convertUnits
      = st.myExportOptions.convertUnits := by
  unfold bundleStep; split <;> rfl

theorem bundleStep_convertUnitTo (h : HostScene) (st : ExporterState) :
    (bundleStep h st).myExportOptions.convertUnitTo
      = st.myExportOptions.convertUnitTo := by
  unfold bundleStep; split <;> rfl

theorem bundleStep_exportTakeName (h : HostScene) (st : ExporterState) :
    (bundleStep h st).myExportOptions.exportTakeName
      = st.myExportOptions.exportTakeName := by
  unfold bundleStep; split <;> rfl

theorem bundleStep_exportClips (h : HostScene) (st : ExporterState) :
    (bundleStep h st).myExportOptions.exportClips
      = st.myExportOptions.exportClips := by
  unfold bundleStep; split <;> rfl

theorem bundleStep_nextId (h : HostScene) (st : ExporterState) :
    (bundleStep h st).nextId = st.nextId := by
  unfold bundleStep; split <;> rfl

theorem bundleStep_myDidCancel (h : HostScene) (st : ExporterState) :
    (bundleStep h st).myDidCancel = st.myDidCancel := by
  unfold bundleStep; split <;> rfl

theorem bundleStep_myErrors (h : HostScene) (st : ExporterState) :
    (bundleStep h st).myErrors = st.myErrors := by
  unfold bundleStep; split <;> rfl

theorem animBlock_fst (h : HostScene) (st : ExporterState) (tk : String)
    (g : List String) :
    (animBlock h st tk g).1 =
      { st with nextId := (animBlock h st tk g).1.nextId,
                myDidCancel := h.animCancel } := by
  simp only [animBlock]

theorem animBlock_filter_empty (p : FbxEvent → Bool)
    (hlayer : ∀ n i, p (FbxEvent.createAnimLayer n i) = false)
    (hstack : ∀ n i, p (FbxEvent.createAnimStack n i) = false)
    (haddl : ∀ a b, p (FbxEvent.stackAddLayer a b) = false)
    (hlocal : ∀ s a b, p (FbxEvent.setStackLocalSpan s a b) = false)
    (href : ∀ s a b, p (FbxEvent.setStackRefSpan s a b) = false)
    (htrs : p FbxEvent.exportTRSAnimation = false)
    (hvisit : ∀ n, p (FbxEvent.visitSceneAnim n) = false)
    (h : HostScene) (st : ExporterState) (tk : String) (g : List String) :
    ((animBlock h st tk g).2).filter p = [] := by
  simp only [animBlock]
  split_ifs <;>
    simp [List.filter_append, List.filter_cons,
      clipStackEvents_filter_empty p hstack haddl hlocal href,
      hlayer, hstack, haddl, htrs, hvisit]

theorem axisEvents_filter_empty (p : FbxEvent → Bool)
    (h1 : ∀ a, p (FbxEvent.setOriginalUpAxis a) = false)
    (h2 : ∀ a, p (FbxEvent.axisConvertScene a) = false)
    (h3 : ∀ a, p (FbxEvent.setAxisSystem a) = false)
    (h : HostScene) (o : ROP_FBXExportOptions) :
    (axisEvents h o).filter p = [] := by
  simp only [axisEvents]
  split_ifs <;> simp [h1, h2, h3]

theorem unitEvents_filter_empty (p : FbxEvent → Bool)
    (h1 : ∀ q, p (FbxEvent.setSystemUnit q) = false)
    (h2 : ∀ q, p (FbxEvent.setOriginalSystemUnit q) = false)
    (h3 : ∀ q, p (FbxEvent.unitConvertScene q) = false)
    (h : HostScene) (o : ROP_FBXExportOptions) :
    (unitEvents h o).filter p = [] := by
  simp only [unitEvents]
  split_ifs <;> simp [h1, h2, h3]

theorem timeEvents_filter_empty (p : FbxEvent → Bool)
    (h1 : ∀ m, p (FbxEvent.setTimeMode m) = false)
    (h2 : ∀ q, p (FbxEvent.setCustomFrameRate q) = false)
    (h3 : ∀ m q, p (FbxEvent.setGlobalTimeMode m q) = false)
    (h4 : ∀ a b, p (FbxEvent.setTimelineSpan a b) = false)
    (h : HostScene) (st : ExporterState) :
    (timeEvents h st).filter p = [] := by
  simp [timeEvents, h1, h2, h3, h4]

theorem animBlock_myExportOptions (h : HostScene) (st : ExporterState)
    (tk : String) (g : List String) :
    (animBlock h st tk g).1.myExportOptions = st.myExportOptions := rfl

/-- C5: axis conversion is idempotent — for every export requesting axis
conversion (to a non-`Current` target) whose target axis system equals the
scene's current axis system, the `doExport` trace applies no axis conversion
transform to the scene and never sets the "original axis" record. -/
theorem c5_axis_idempotent (h : HostScene) (st : ExporterState)
    (hconv : st.myExportOptions.convertAxisSystem = true)
    (hcur : ¬ (st.myExportOptions.axisSystem = ROP_FBXAxisSystem.Current))
    (heq : targetAxisOf (sceneAxisOf h.orientation) st.myExportOptions.axisSystem
      = sceneAxisOf h.orientation) :
    (doExport h st).2.filter isAxisConvEv = [] ∧
    (doExport h st).2.filter isOrigUpAxisEv = [] := by
  have hax : ∀ o : ROP_FBXExportOptions,
      o.convertAxisSystem = st.myExportOptions.convertAxisSystem →
      o.axisSystem = st.myExportOptions.axisSystem →
      axisEvents h o = [] := by
    intro o hco hao
    simp only [axisEvents]
    rw [if_pos ⟨by rw [hco, hconv], by rw [hao]; exact hcur⟩]
    rw [if_neg]
    intro hne
    exact hne (by rw [hao]; exact heq)
  have main : (doExport h st).2.filter
      (fun e => isAxisConvEv e || isOrigUpAxisEv e) = [] := by
    have haxf : ∀ o : ROP_FBXExportOptions,
        o.convertAxisSystem = st.myExportOptions.convertAxisSystem →
        o.axisSystem = st.myExportOptions.axisSystem →
        (axisEvents h o).filter
          (fun e => isAxisConvEv e || isOrigUpAxisEv e) = [] := by
      intro o hco hao
      rw [hax o hco hao]
      rfl
    cases hi : h.interrupted
    · unfold doExport
      simp only [hi, Bool.false_eq_true, if_false]
      unfold doExportMain
      by_cases hsf : (bundleStep h st).myStartTime = (bundleStep h st).myEndTime
      · simp only [hsf, eq_self_iff_true, if_true]
        cases hfn : findNode h (bundleStep h st).myExportOptions.startNodePath
        · simp only [hfn]
          split_ifs <;> rfl
        · simp only [hfn]
          split_ifs <;>
            simp only [List.filter_append, List.append_nil, List.nil_append,
              haxf, bundleStep_convertAxisSystem, bundleStep_axisSystem,
              unitEvents_filter_empty (fun e => isAxisConvEv e || isOrigUpAxisEv e)
                (fun _ => rfl) (fun _ => rfl) (fun _ => rfl)] <;>
            rfl
      · simp only [hsf, if_false]
        cases hfn : findNode h (bundleStep h st).myExportOptions.startNodePath
        · simp only [hfn]
          split_ifs <;>
            simp only [List.filter_append,
              timeEvents_filter_empty (fun e => isAxisConvEv e || isOrigUpAxisEv e)
                (fun _ => rfl) (fun _ => rfl) (fun _ _ => rfl) (fun _ _ => rfl)] <;>
            rfl
        · simp only [hfn]
          split_ifs <;>
            simp only [List.filter_append, List.append_nil, List.nil_append,
              animBlock_myExportOptions, haxf, bundleStep_convertAxisSystem,
              bundleStep_axisSystem,
              timeEvents_filter_empty (fun e => isAxisConvEv e || isOrigUpAxisEv e)
                (fun _ => rfl) (fun _ => rfl) (fun _ _ => rfl) (fun _ _ => rfl),
              unitEvents_filter_empty (fun e => isAxisConvEv e || isOrigUpAxisEv e)
                (fun _ => rfl) (fun _ => rfl) (fun _ => rfl),
              animBlock_filter_empty (fun e => isAxisConvEv e || isOrigUpAxisEv e)
                (fun _ _ => rfl) (fun _ _ => rfl) (fun _ _ => rfl)
                (fun _ _ _ => rfl) (fun _ _ _ => rfl) rfl (fun _ => rfl)] <;>
            rfl
    · simp [doExport, hi]
  constructor
  · rw [List.filter_eq_nil_iff] at main ⊢
    intro a ha
    have hm := main a ha
    simp only [Bool.or_eq_true, not_or] at hm
    simp [hm.1]
  · rw [List.filter_eq_nil_iff] at main ⊢
    intro a ha
    have hm := main a ha
    simp only [Bool.or_eq_true, not_or] at hm
    simp [hm.2]

/-- C4 (witness): a concrete single-frame export (start time = end time = 0)
produces no animation events. -/
theorem c4_single_frame_witness :
    (doExport houHost baseState).2.filter isAnimEv = [] :=
  c4_single_frame_no_animation houHost baseState rfl

/-- A state requesting axis conversion to the Y-up right-handed target on a
Y-up host — the target equals the scene's axis system. -/
def c5State : ExporterState :=
  { baseState with
    myExportOptions :=
      { ROP_FBXExportOptions.reset with
        startNodePath := ["obj", "geo1"]
        convertAxisSystem := true
        axisSystem := ROP_FBXAxisSystem.YUp_RightHanded } }

/-- C5 (witness): the idempotence statement at a concrete Y-up export
requesting the Y-up right-handed target. -/
theorem c5_axis_idempotent_witness :
    (doExport houHost c5State).2.filter isAxisConvEv = [] ∧
    (doExport houHost c5State).2.filter isOrigUpAxisEv = [] :=
  c5_axis_idempotent houHost c5State rfl (by decide) rfl

/-- Unit-system calls (unit records and unit conversion). -/
def isUnitEv : FbxEvent → Bool
  | FbxEvent.setSystemUnit _ => true
  | FbxEvent.setOriginalSystemUnit _ => true
  | FbxEvent.unitConvertScene _ => true
  | _ => false

theorem unitStateFold_id (s : ℚ × List ℚ) (e : FbxEvent)
    (hp : isUnitEv e = false) : unitStateFold s e = s := by
  cases e <;> first
    | rfl
    | exact Bool.noConfusion hp

theorem foldl_unitStateFold_filter :
    ∀ (tr : List FbxEvent) (s : ℚ × List ℚ),
      tr.foldl unitStateFold s = (tr.filter isUnitEv).foldl unitStateFold s := by
  intro tr
  induction tr with
  | nil => intro s; rfl
  | cons e rest ih =>
    intro s
    by_cases hp : isUnitEv e = true
    · rw [List.filter_cons_of_pos hp]
      simp only [List.foldl_cons]
      exact ih (unitStateFold s e)
    · have hpf : isUnitEv e = false := by
        revert hp; cases isUnitEv e <;> simp
      rw [List.filter_cons_of_neg (by simp [hpf])]
      simp only [List.foldl_cons, unitStateFold_id s e hpf]
      exact ih s

theorem unitScale_ne_zero (u : UnitTarget) : ¬ (unitScale u = 0) := by
  cases u <;> decide

theorem animBlock_myDidCancel (h : HostScene) (st : ExporterState)
    (tk : String) (g : List String) :
    (animBlock h st tk g).1.myDidCancel = h.animCancel := rfl

/-- C8 helper: under the hypotheses that unit conversion is requested and the
export reaches the conversion block, the unit events of the `doExport` trace
are exactly the block's three calls. -/
theorem c8_unit_filter_char (h : HostScene) (st : ExporterState)
    (hcu : st.myExportOptions.convertUnits = true)
    (hint : h.interrupted = false)
    (hmem : (bundleStep h st).myExportOptions.startNodePath ∈ h.nodes)
    (hgc : h.geomCancel = false) :
    (doExport h st).2.filter isUnitEv =
      [FbxEvent.setSystemUnit (h.unitLength * 100),
       FbxEvent.setOriginalSystemUnit (h.unitLength * 100),
       FbxEvent.unitConvertScene (unitScale st.myExportOptions.convertUnitTo)] := by
  unfold doExport
  simp only [hint, Bool.false_eq_true, if_false]
  unfold doExportMain
  by_cases hsf : (bundleStep h st).myStartTime = (bundleStep h st).myEndTime
  · simp only [hsf, eq_self_iff_true, if_true, findNode, hmem, if_true]
    simp only [hgc, Bool.false_eq_true, if_false]
    split_ifs <;>
      simp only [List.filter_append, List.append_nil, List.nil_append,
        unitEvents, bundleStep_convertUnits, bundleStep_convertUnitTo, hcu,
        eq_self_iff_true, if_true,
        axisEvents_filter_empty isUnitEv (fun _ => rfl) (fun _ => rfl)
          (fun _ => rfl)] <;>
      rfl
  · simp only [hsf, if_false, findNode, hmem, if_true]
    simp only [hgc, Bool.false_eq_true, if_false]
    simp only [animBlock_myExportOptions, animBlock_myDidCancel]
    split_ifs <;>
      simp only [List.filter_append, List.append_nil, List.nil_append,
        unitEvents, bundleStep_convertUnits, bundleStep_convertUnitTo, hcu,
        eq_self_iff_true, if_true,
        axisEvents_filter_empty isUnitEv (fun _ => rfl) (fun _ => rfl)
          (fun _ => rfl),
        timeEvents_filter_empty isUnitEv (fun _ => rfl) (fun _ => rfl)
          (fun _ _ => rfl) (fun _ _ => rfl),
        animBlock_filter_empty isUnitEv (fun _ _ => rfl) (fun _ _ => rfl)
          (fun _ _ => rfl) (fun _ _ _ => rfl) (fun _ _ _ => rfl) rfl
          (fun _ => rfl)] <;>
      rfl

/-- C8: when unit conversion is requested and the export reaches the
conversion block, the current and original unit records are both set to the
host's scale-to-centimeters factor; if that factor already equals the
requested target unit's scale, the one conversion applied has ratio 1 (the
scene is not rescaled); otherwise the conversion rescales the scene by a
ratio different from 1 and leaves the scene's unit record equal to the
requested absolute unit.  The SDK conversion semantics (`unitStateFold`) are
modelled from the spec, the call sequence from the source. -/
theorem c8_unit_conversion (h : HostScene) (st : ExporterState)
    (hcu : st.myExportOptions.convertUnits = true)
    (hint : h.interrupted = false)
    (hmem : (bundleStep h st).myExportOptions.startNodePath ∈ h.nodes)
    (hgc : h.geomCancel = false) :
    FbxEvent.setSystemUnit (h.unitLength * 100) ∈ (doExport h st).2 ∧
    FbxEvent.setOriginalSystemUnit (h.unitLength * 100) ∈ (doExport h st).2 ∧
    (h.unitLength * 100 = unitScale st.myExportOptions.convertUnitTo →
      rescaleRatios (doExport h st).2 = [1]) ∧
    (¬ (h.unitLength * 100 = unitScale st.myExportOptions.convertUnitTo) →
      rescaleRatios (doExport h st).2 =
        [h.unitLength * 100 / unitScale st.myExportOptions.convertUnitTo] ∧
      ¬ (h.unitLength * 100 / unitScale st.myExportOptions.convertUnitTo = 1) ∧
      finalSceneUnit (doExport h st).2
        = unitScale st.myExportOptions.convertUnitTo) := by
  have hchar := c8_unit_filter_char h st hcu hint hmem hgc
  have hrat : rescaleRatios (doExport h st).2 =
      [h.unitLength * 100 / unitScale st.myExportOptions.convertUnitTo] := by
    unfold rescaleRatios
    rw [foldl_unitStateFold_filter, hchar]
    rfl
  have hfin : finalSceneUnit (doExport h st).2
      = unitScale st.myExportOptions.convertUnitTo := by
    unfold finalSceneUnit
    rw [foldl_unitStateFold_filter, hchar]
    rfl
  refine ⟨?_, ?_, ?_, ?_⟩
  · exact List.mem_of_mem_filter (by rw [hchar]; exact List.mem_cons_self _ _)
  · exact List.mem_of_mem_filter (by rw [hchar]; simp)
  · intro heqq
    rw [hrat, (div_eq_one_iff_eq
      (unitScale_ne_zero st.myExportOptions.convertUnitTo)).mpr heqq]
  · intro hne
    refine ⟨hrat, ?_, hfin⟩
    intro h1
    exact hne ((div_eq_one_iff_eq
      (unitScale_ne_zero st.myExportOptions.convertUnitTo)).mp h1)

/-- A state requesting unit conversion to meters. -/
def c8State : ExporterState :=
  { baseState with
    myExportOptions :=
      { ROP_FBXExportOptions.reset with
        startNodePath := ["obj", "geo1"]
        convertUnits := true
        convertUnitTo := UnitTarget.UNIT_M } }

/-- C8 (witness): the unit-conversion statement at a concrete export
converting to meters on a host with unit length 1. -/
theorem c8_unit_conversion_witness :
    FbxEvent.setSystemUnit (houHost.unitLength * 100)
        ∈ (doExport houHost c8State).2 ∧
    FbxEvent.setOriginalSystemUnit (houHost.unitLength * 100)
        ∈ (doExport houHost c8State).2 ∧
    (houHost.unitLength * 100 = unitScale c8State.myExportOptions.convertUnitTo →
      rescaleRatios (doExport houHost c8State).2 = [1]) ∧
    (¬ (houHost.unitLength * 100
        = unitScale c8State.myExportOptions.convertUnitTo) →
      rescaleRatios (doExport houHost c8State).2 =
        [houHost.unitLength * 100
          / unitScale c8State.myExportOptions.convertUnitTo] ∧
      ¬ (houHost.unitLength * 100
          / unitScale c8State.myExportOptions.convertUnitTo = 1) ∧
      finalSceneUnit (doExport houHost c8State).2
        = unitScale c8State.myExportOptions.convertUnitTo) :=
  c8_unit_conversion houHost c8State rfl rfl (by decide) rfl

/-- Animation-stack creations. -/
def isStackCreateEv : FbxEvent → Bool
  | FbxEvent.createAnimStack _ _ => true
  | _ => false

/-- Explicit local time-span writes on a stack. -/
def isLocalSpanEv : FbxEvent → Bool
  | FbxEvent.setStackLocalSpan _ _ _ => true
  | _ => false

/-- Explicit reference time-span writes on a stack. -/
def isRefSpanEv : FbxEvent → Bool
  | FbxEvent.setStackRefSpan _ _ _ => true
  | _ => false

theorem clipStackEvents_filter_core (layer : Nat) :
    ∀ (clips : List ROP_FBXExportClip) (nid : Nat),
      (clipStackEvents layer clips nid).filter isAnimCoreEv =
        claimedClipStacks clips nid := by
  intro clips
  induction clips with
  | nil => intro nid; rfl
  | cons c rest ih =>
    intro nid
    simp only [clipStackEvents, claimedClipStacks, List.filter_append, ih]
    rfl

theorem animBlock_filter_core (h : HostScene) (st : ExporterState)
    (tk : String) (g : List String) :
    ((animBlock h st tk g).2).filter isAnimCoreEv =
      claimedAnimEvents st.myExportOptions.exportClips tk st.nextId := by
  have htrs : List.filter isAnimCoreEv [FbxEvent.exportTRSAnimation] = [] := rfl
  have hvis : ∀ g' : List String,
      List.filter isAnimCoreEv [FbxEvent.visitSceneAnim g'] = [] := fun _ => rfl
  simp only [animBlock, claimedAnimEvents]
  by_cases hc : st.myExportOptions.exportClips = []
  · simp only [hc, not_true, if_false, eq_self_iff_true, if_true, ite_true,
      ite_false, not_true_eq_false]
    split_ifs <;> rfl
  · simp only [hc, not_false_iff, if_true, ite_true, if_false, ite_false,
      not_false_eq_true]
    split_ifs <;>
      (rw [List.filter_cons_of_pos (by exact rfl)]
       simp only [List.filter_append, clipStackEvents_filter_core, htrs, hvis,
         List.append_nil])

/-- C7 (amended): for every animated export that reaches the animation pass,
the animation events of the trace are exactly one layer followed by one stack
per enumerated clip, named after the clip with local and reference time spans
set to the clip's frame range — or, with no clips, a single stack named after
the current take, with no explicit time span set. -/
theorem c7_animation_stacks (h : HostScene) (st : ExporterState)
    (hint : h.interrupted = false)
    (hanim : ¬ (st.myStartTime = st.myEndTime))
    (hmem : (bundleStep h st).myExportOptions.startNodePath ∈ h.nodes)
    (hgc : h.geomCancel = false) :
    (doExport h st).2.filter isAnimCoreEv =
      claimedAnimEvents st.myExportOptions.exportClips
        (if st.myExportOptions.exportTakeName = "" then h.currentTakeName
         else st.myExportOptions.exportTakeName)
        st.nextId := by
  have hsf : ¬ ((bundleStep h st).myStartTime = (bundleStep h st).myEndTime) := by
    rw [bundleStep_myStartTime, bundleStep_myEndTime]; exact hanim
  have hA : ∀ s : String, List.filter isAnimCoreEv [FbxEvent.takeSet s] = [] :=
    fun _ => rfl
  have hB : List.filter isAnimCoreEv [FbxEvent.setSceneInfo] = [] := rfl
  have hC : ∀ g : List String,
      List.filter isAnimCoreEv [FbxEvent.visitSceneGeom g] = [] := fun _ => rfl
  have hD : List.filter isAnimCoreEv [FbxEvent.setAmbientColor] = [] := rfl
  have hE : List.filter isAnimCoreEv [FbxEvent.performPostActions] = [] := rfl
  have hF : List.filter isAnimCoreEv [FbxEvent.performInstancesAction] = [] := rfl
  unfold doExport
  simp only [hint, Bool.false_eq_true, if_false]
  unfold doExportMain
  simp only [hsf, if_false, findNode, hmem, if_true]
  simp only [hgc, Bool.false_eq_true, if_false]
  simp only [animBlock_myDidCancel, bundleStep_exportTakeName]
  split_ifs <;>
    simp only [List.filter_append, List.append_nil, List.nil_append,
      animBlock_filter_core, bundleStep_exportClips, bundleStep_nextId,
      bundleStep_exportTakeName, hA, hB, hC, hD, hE, hF,
      timeEvents_filter_empty isAnimCoreEv (fun _ => rfl) (fun _ => rfl)
        (fun _ _ => rfl) (fun _ _ => rfl),
      axisEvents_filter_empty isAnimCoreEv (fun _ => rfl) (fun _ => rfl)
        (fun _ => rfl),
      unitEvents_filter_empty isAnimCoreEv (fun _ => rfl) (fun _ => rfl)
        (fun _ => rfl)]

/-- An animated export (time range 0 to 1) with no export clips. -/
def c7State : ExporterState :=
  { baseState with
    myEndTime := 1
    myExportOptions :=
      { ROP_FBXExportOptions.reset with startNodePath := ["obj", "geo1"] } }

/-- C7 (counterexample): a concrete animated export with no clips creates its
single take-named stack (lines 425-426) without ever setting a local or
reference time span — against the claim's "every created stack carries an
explicit local and reference time span". -/
theorem c7_take_stack_no_span_counterexample :
    getExportingAnimation c7State = true ∧
    c7State.myExportOptions.exportClips = [] ∧
    (doExport houHost c7State).2.filter isStackCreateEv =
      [FbxEvent.createAnimStack "Main" 3] ∧
    (doExport houHost c7State).2.filter isLocalSpanEv = [] ∧
    (doExport houHost c7State).2.filter isRefSpanEv = [] := by
  decide

/-- An animated export with two named clips. -/
def c7WitnessState : ExporterState :=
  { baseState with
    myEndTime := 1
    myExportOptions :=
      { ROP_FBXExportOptions.reset with
        startNodePath := ["obj", "geo1"]
        exportClips := [{ name := "clipA", start_frame := 1, end_frame := 10 },
                        { name := "clipB", start_frame := 5, end_frame := 20 }] } }

/-- C7 (witness): the amended statement at a concrete two-clip export. -/
theorem c7_animation_stacks_witness :
    (doExport houHost c7WitnessState).2.filter isAnimCoreEv =
      claimedAnimEvents c7WitnessState.myExportOptions.exportClips
        (if c7WitnessState.myExportOptions.exportTakeName = ""
         then houHost.currentTakeName
         else c7WitnessState.myExportOptions.exportTakeName)
        c7WitnessState.nextId :=
  c7_animation_stacks houHost c7WitnessState rfl (by decide) (by decide) rfl

theorem hasWriterInitEv_append (a b : List FbxEvent) :
    hasWriterInitEv (a ++ b) = (hasWriterInitEv a || hasWriterInitEv b) := by
  simp [hasWriterInitEv, List.any_append]

theorem hasWriterWriteEv_append (a b : List FbxEvent) :
    hasWriterWriteEv (a ++ b) = (hasWriterWriteEv a || hasWriterWriteEv b) := by
  simp [hasWriterWriteEv, List.any_append]

/-- Whenever the cancel flag is clear, `finishExport` creates and initializes
the writer, and — when initialization succeeds — asks it to write the
scene. -/
theorem finishExport_writer_calls (h2 : HostScene) (st : ExporterState)
    (hc : st.myDidCancel = false) :
    hasWriterInitEv (finishExport h2 st).2.2 = true ∧
    (h2.writerInitOk = true →
      hasWriterWriteEv (finishExport h2 st).2.2 = true) := by
  unfold finishExport
  simp only [hc, Bool.false_eq_true, if_false]
  constructor
  · split_ifs <;>
      simp [hasWriterInitEv_append, hasWriterInitEv, List.any_cons]
  · intro hio
    simp only [hio, not_true, if_false, ite_true, ite_false, not_true_eq_false]
    split_ifs <;>
      simp [hasWriterWriteEv_append, hasWriterWriteEv, List.any_cons]

/-- C1 (amended): for every export whose resolved start path does not exist,
`doExport` records exactly one fatal error and aborts — no visitor or
deferred-action call, and no writer call from `doExport` itself; the
subsequent `finishExport`, whose cancel flag is still clear, nevertheless
initializes the writer against the output file and, when initialization
succeeds, asks it to write the (empty) scene. -/
theorem c1_missing_start_node (h h2 : HostScene) (st : ExporterState)
    (hint : h.interrupted = false)
    (hmiss : ¬ ((bundleStep h st).myExportOptions.startNodePath ∈ h.nodes))
    (herr : st.myErrors = []) (hcan : st.myDidCancel = false) :
    (doExport h st).1.myErrors =
      [("Could not find the start node specified [ " ++
          pathString (bundleStep h st).myExportOptions.startNodePath ++ " ]",
        true)] ∧
    (doExport h st).2.filter isWriterEv = [] ∧
    (doExport h st).2.filter isPopulateEv = [] ∧
    hasWriterInitEv (finishExport h2 (doExport h st).1).2.2 = true ∧
    (h2.writerInitOk = true →
      hasWriterWriteEv (finishExport h2 (doExport h st).1).2.2 = true) := by
  have hcancel : (doExport h st).1.myDidCancel = false := by
    unfold doExport
    simp only [hint, Bool.false_eq_true, if_false]
    unfold doExportMain
    by_cases hsf : (bundleStep h st).myStartTime = (bundleStep h st).myEndTime <;>
      simp only [hsf, eq_self_iff_true, if_true, if_false, findNode, hmiss,
        bundleStep_myDidCancel, hcan]
  have htrace : (doExport h st).1.myErrors =
      [("Could not find the start node specified [ " ++
          pathString (bundleStep h st).myExportOptions.startNodePath ++ " ]",
        true)] ∧
      (doExport h st).2.filter isWriterEv = [] ∧
      (doExport h st).2.filter isPopulateEv = [] := by
    unfold doExport
    simp only [hint, Bool.false_eq_true, if_false]
    unfold doExportMain
    by_cases hsf : (bundleStep h st).myStartTime = (bundleStep h st).myEndTime <;>
      simp only [hsf, eq_self_iff_true, if_true, if_false, findNode, hmiss,
        bundleStep_myErrors, herr] <;>
      refine ⟨rfl, ?_, ?_⟩ <;>
      split_ifs <;>
      simp only [List.filter_append,
        timeEvents_filter_empty isWriterEv (fun _ => rfl) (fun _ => rfl)
          (fun _ _ => rfl) (fun _ _ => rfl),
        timeEvents_filter_empty isPopulateEv (fun _ => rfl) (fun _ => rfl)
          (fun _ _ => rfl) (fun _ _ => rfl)] <;>
      rfl
  obtain ⟨he, hw, hp⟩ := htrace
  have hfin := finishExport_writer_calls h2 (doExport h st).1 hcancel
  exact ⟨he, hw, hp, hfin.1, hfin.2⟩

/-- An export whose start node path `/obj/nonexistent` is absent from the
host scene. -/
def c1State : ExporterState :=
  { baseState with
    myExportOptions :=
      { ROP_FBXExportOptions.reset with
        startNodePath := ["obj", "nonexistent"] } }

/-- C1 (counterexample): at the concrete missing-node export, the run records
its single fatal error and `doExport` makes no writer call, yet the session's
`finishExport` still initializes the writer and writes a file (returning
success) — against the claim's "the writer is never initialized and never
asked to write a file". -/
theorem c1_writer_runs_counterexample :
    (doExport houHost c1State).1.myErrors =
      [("Could not find the start node specified [ /obj/nonexistent ]", true)] ∧
    (doExport houHost c1State).2.filter isWriterEv = [] ∧
    hasWriterInitEv (finishExport houHost (doExport houHost c1State).1).2.2
      = true ∧
    hasWriterWriteEv (finishExport houHost (doExport houHost c1State).1).2.2
      = true ∧
    (finishExport houHost (doExport houHost c1State).1).1 = true := by
  decide

/-- C1 (witness): the amended statement at the concrete missing-node
export. -/
theorem c1_missing_start_node_witness :
    (doExport houHost c1State).1.myErrors =
      [("Could not find the start node specified [ " ++
          pathString (bundleStep houHost c1State).myExportOptions.startNodePath
          ++ " ]", true)] ∧
    (doExport houHost c1State).2.filter isWriterEv = [] ∧
    (doExport houHost c1State).2.filter isPopulateEv = [] ∧
    hasWriterInitEv
      (finishExport houHost (doExport houHost c1State).1).2.2 = true ∧
    (houHost.writerInitOk = true →
      hasWriterWriteEv
        (finishExport houHost (doExport houHost c1State).1).2.2 = true) :=
  c1_missing_start_node houHost houHost c1State rfl (by decide) rfl rfl

/-- C10: when a call to `getFBXRootNode` requires a subnet root, then (i) at
a state with no dummy root the call creates the `world_root` null node,
attaches it under the scene root, registers the (export node, dummy node)
pair in the node map, and returns it; (ii) at a state that already has the
dummy node the call returns that same node, with no state change and no
external call; and (iii) a repeated call after any such call returns the
same node with no further creation. -/
theorem c10_world_root_created_once (h : HostScene) (st : ExporterState)
    (asking : List String) (createRoot : Bool)
    (hreq : requiresSubnetRoot h st asking createRoot = true) :
    (st.myDummyRootNullNode = none →
      getFBXRootNode h st asking createRoot =
        (FbxNodeRef.fbxNode st.nextId,
         { st with myDummyRootNullNode := some st.nextId
                   nextId := st.nextId + 1
                   myNodePairs := st.myNodePairs
                     ++ [(st.myExportOptions.startNodePath, st.nextId)] },
         [FbxEvent.createNullNode (h.makeUnique "world_root") st.nextId,
          FbxEvent.setStandardTransforms st.nextId,
          FbxEvent.addChildToSceneRoot st.nextId,
          FbxEvent.addNodePair st.myExportOptions.startNodePath st.nextId])) ∧
    (∀ d, st.myDummyRootNullNode = some d →
      getFBXRootNode h st asking createRoot = (FbxNodeRef.fbxNode d, st, [])) ∧
    getFBXRootNode h (getFBXRootNode h st asking createRoot).2.1 asking
        createRoot =
      ((getFBXRootNode h st asking createRoot).1,
       (getFBXRootNode h st asking createRoot).2.1, []) := by
  by_cases hmem : st.myExportOptions.startNodePath ∈ h.nodes
  · have hex : findNode h st.myExportOptions.startNodePath
        = some st.myExportOptions.startNodePath := by
      simp [findNode, hmem]
    rw [requiresSubnetRoot] at hreq
    simp only [hex, Bool.and_eq_true, decide_eq_true_eq] at hreq
    obtain ⟨hp, ⟨ha, hd⟩, hc⟩ := hreq
    have hevalSome : ∀ (st' : ExporterState) (d : Nat),
        st'.myExportOptions = st.myExportOptions →
        st'.myDummyRootNullNode = some d →
        getFBXRootNode h st' asking createRoot
          = (FbxNodeRef.fbxNode d, st', []) := by
      intro st' d hopt hdum
      unfold getFBXRootNode
      rw [hopt, if_neg hp]
      simp only [hex]
      rw [if_neg ha, if_neg hd, if_neg (by simp [hc]), hdum]
    have hevalNone : ∀ st' : ExporterState,
        st'.myExportOptions = st.myExportOptions →
        st'.myDummyRootNullNode = none →
        getFBXRootNode h st' asking createRoot =
          (FbxNodeRef.fbxNode st'.nextId,
           { st' with myDummyRootNullNode := some st'.nextId
                      nextId := st'.nextId + 1
                      myNodePairs := st'.myNodePairs
                        ++ [(st.myExportOptions.startNodePath, st'.nextId)] },
           [FbxEvent.createNullNode (h.makeUnique "world_root") st'.nextId,
            FbxEvent.setStandardTransforms st'.nextId,
            FbxEvent.addChildToSceneRoot st'.nextId,
            FbxEvent.addNodePair st.myExportOptions.startNodePath
              st'.nextId]) := by
      intro st' hopt hdum
      unfold getFBXRootNode
      rw [hopt, if_neg hp]
      simp only [hex]
      rw [if_neg ha, if_neg hd, if_neg (by simp [hc]), hdum]
    refine ⟨?_, ?_, ?_⟩
    · intro hdum
      exact hevalNone st rfl hdum
    · intro d hdum
      exact hevalSome st d rfl hdum
    · cases hdum : st.myDummyRootNullNode with
      | some d =>
        rw [hevalSome st d rfl hdum]
        exact hevalSome st d rfl hdum
      | none =>
        rw [hevalNone st rfl hdum]
        exact hevalSome _ st.nextId rfl rfl
  · exfalso
    rw [requiresSubnetRoot] at hreq
    have hex : findNode h st.myExportOptions.startNodePath = none := by
      simp [findNode, hmem]
    simp only [hex, Bool.and_eq_true] at hreq
    exact Bool.noConfusion hreq.2

/-- A state exporting the subnet-rooted path `/obj/N1/A`. -/
def c10State : ExporterState :=
  { baseState with
    myExportOptions :=
      { ROP_FBXExportOptions.reset with
        startNodePath := ["obj", "N1", "A"] } }

/-- C10 (witness): the statement at a concrete subnet export, asked for by a
node other than the export node. -/
theorem c10_world_root_witness :
    (c10State.myDummyRootNullNode = none →
      getFBXRootNode houHost c10State ["obj", "geo1"] true =
        (FbxNodeRef.fbxNode c10State.nextId,
         { c10State with myDummyRootNullNode := some c10State.nextId
                         nextId := c10State.nextId + 1
                         myNodePairs := c10State.myNodePairs
                           ++ [(c10State.myExportOptions.startNodePath,
                                c10State.nextId)] },
         [FbxEvent.createNullNode (houHost.makeUnique "world_root")
            c10State.nextId,
          FbxEvent.setStandardTransforms c10State.nextId,
          FbxEvent.addChildToSceneRoot c10State.nextId,
          FbxEvent.addNodePair c10State.myExportOptions.startNodePath
            c10State.nextId])) ∧
    (∀ d, c10State.myDummyRootNullNode = some d →
      getFBXRootNode houHost c10State ["obj", "geo1"] true
        = (FbxNodeRef.fbxNode d, c10State, [])) ∧
    getFBXRootNode houHost
        (getFBXRootNode houHost c10State ["obj", "geo1"] true).2.1
        ["obj", "geo1"] true =
      ((getFBXRootNode houHost c10State ["obj", "geo1"] true).1,
       (getFBXRootNode houHost c10State ["obj", "geo1"] true).2.1, []) :=
  c10_world_root_created_once houHost c10State ["obj", "geo1"] true (by decide)
